import Mathlib

/-!
Verification of the BITOKI automated trading engine core
(`src/bitoki`): pattern detection, retest confirmation, trend
classification, position sizing, risk management, order execution and
the strategy orchestrator. Prices and sizes are modelled as rationals;
candle series as lists of candles in time order.
-/

set_option maxHeartbeats 1000000
set_option maxRecDepth 4000

namespace Bitoki

/-- One OHLCV bar (`ohlcv` DataFrame row in the source). -/
structure Candle where
  open_ : ℚ
  high : ℚ
  low : ℚ
  close : ℚ
  volume : ℚ
  deriving DecidableEq

instance : Inhabited Candle := ⟨⟨0, 0, 0, 0, 0⟩⟩

/-- The five pattern kinds of `patterns/detector.py` (`PatternType`). -/
inductive PatternType where
  | ErectHnS
  | InvertedHnS
  | DoubleTop
  | ErectRect
  | InvRect
  deriving DecidableEq

/-- The string tag the Python code uses for each pattern kind
(the `Literal` values of `PatternType`). -/
def PatternType.tag : PatternType → String
  | .ErectHnS => "ErectHnS"
  | .InvertedHnS => "InvertedHnS"
  | .DoubleTop => "DoubleTop"
  | .ErectRect => "ErectRect"
  | .InvRect => "InvRect"

/-- The `Pattern` dataclass of `patterns/detector.py`. Optional float
fields are `Option ℚ` (Python `None` ↦ `none`); `valid_since` (a wall
clock timestamp, never used in any computation under scrutiny) is
omitted. -/
structure Pattern where
  type : PatternType
  formation_bar_index : ℕ
  neckline_price : ℚ
  entry_price : Option ℚ := none
  stop_loss : Option ℚ := none
  take_profit : Option ℚ := none
  left_shoulder : Option ℚ := none
  head : Option ℚ := none
  right_shoulder : Option ℚ := none
  rectangle_top : Option ℚ := none
  rectangle_bottom : Option ℚ := none
  confidence : ℚ := 0
  deriving DecidableEq

/-- Python's `x or 0` / use of a possibly-`None` float in arithmetic:
`none` reads as `0`. -/
def orZero (o : Option ℚ) : ℚ := o.getD 0

/-- Python truthiness of an optional float (`if pattern.right_shoulder:`):
`None` and `0.0` are falsy. -/
def pyTruthy (o : Option ℚ) : Bool :=
  match o with
  | none => false
  | some v => decide (v ≠ 0)

/-- `df.tail(n)`: the last `n` elements of a list (all of them when the
list is shorter). -/
def lastN (n : ℕ) (l : List α) : List α := l.drop (l.length - n)

/-- `series.iloc[-1]` on the close column: the last close of a candle
list (0 on the empty list, which the source never reaches). -/
def lastClose (cs : List Candle) : ℚ := ((cs.getLast?).getD default).close

/-- `PatternDetector.confirm_retest` (detector.py lines 325-408): the
pattern's key level must have been touched within a 2% tolerance during
the last 5 bars, and the current close must have rejected away from the
level — below 0.98× / above 1.02× for head-and-shoulders and double
top, but above 1.01× / below 0.99× for rectangle breakouts. -/
def confirm_retest (p : Pattern) (ohlcv : List Candle) : Bool :=
  if ohlcv.length < 5 then false
  else
    let recent := lastN 10 ohlcv
    let current_price := lastClose recent
    match p.type with
    | .ErectHnS =>
        let target_level := orZero p.right_shoulder
        let tolerance := target_level * (2/100)
        let tested := (lastN 5 recent).any
          (fun c => decide (|c.high - target_level| ≤ tolerance))
        let rejected := decide (current_price < target_level * (98/100))
        tested && rejected
    | .InvertedHnS =>
        let target_level := orZero p.right_shoulder
        let tolerance := target_level * (2/100)
        let tested := (lastN 5 recent).any
          (fun c => decide (|c.low - target_level| ≤ tolerance))
        let rejected := decide (current_price > target_level * (102/100))
        tested && rejected
    | .DoubleTop =>
        let target_level := p.neckline_price
        let tolerance := target_level * (2/100)
        let tested := (lastN 5 recent).any
          (fun c => decide (|c.low - target_level| ≤ tolerance))
        let rejected := decide (current_price < target_level * (98/100))
        tested && rejected
    | .ErectRect =>
        let target_level := p.neckline_price
        let tolerance := target_level * (2/100)
        let tested := (lastN 5 recent).any
          (fun c => decide (|c.low - target_level| ≤ tolerance))
        let rejected := decide (current_price > target_level * (101/100))
        tested && rejected
    | .InvRect =>
        let target_level := p.neckline_price
        let tolerance := target_level * (2/100)
        let tested := (lastN 5 recent).any
          (fun c => decide (|c.high - target_level| ≤ tolerance))
        let rejected := decide (current_price < target_level * (99/100))
        tested && rejected

/-! ## Position Sizer (`risk/position_sizer.py`) -/

/-- The tunables of `PositionSizer.__init__`. -/
structure PositionSizer where
  risk_pct : ℚ := 2/100
  pips_unit_in_usd : ℚ := 1
  atr_period : ℕ := 14
  atr_multiplier : ℚ := 2
  stoploss_padding_points : ℚ := 10
  deriving DecidableEq

/-- `PositionSizer.calculate_position_size` (lines 38-85):
`(balance × risk_pct) / |entry − stop|`, with 0.0 returned on a
non-positive balance, a non-positive price, or a zero stop distance. -/
def calculate_position_size (s : PositionSizer)
    (account_balance entry_price stop_loss_price : ℚ) : ℚ :=
  if account_balance ≤ 0 then 0
  else if entry_price ≤ 0 ∨ stop_loss_price ≤ 0 then 0
  else
    let risk_amount := account_balance * s.risk_pct
    let sl_distance := |entry_price - stop_loss_price|
    if sl_distance = 0 then 0 else risk_amount / sl_distance

/-- The true-range series: `max(high−low, |high−prev_close|, |low−prev_close|)`
per bar; the first bar (no previous close, hence NaN distances that a
row-wise skipna max ignores) contributes `high − low`. -/
def trueRanges : Option ℚ → List Candle → List ℚ
  | _, [] => []
  | prev_close, c :: rest =>
      let tr :=
        match prev_close with
        | none => c.high - c.low
        | some pc => max (c.high - c.low) (max |c.high - pc| |c.low - pc|)
      tr :: trueRanges (some c.close) rest

/-- `PositionSizer.calculate_atr` (lines 188-210): mean of the last
`atr_period` true ranges; 0.0 when fewer bars exist (the rolling mean
is NaN there and the source maps NaN to 0.0). -/
def calculate_atr (s : PositionSizer) (ohlcv : List Candle) : ℚ :=
  if ohlcv.length < s.atr_period then 0
  else (lastN s.atr_period (trueRanges none ohlcv)).sum / (s.atr_period : ℚ)

/-- `PositionSizer._calculate_structural_stoploss` (lines 116-161).
Sides are the strings `"buy"` / `"sell"` exactly as in the source;
optional pattern fields follow Python truthiness. -/
def structural_stoploss (s : PositionSizer) (p : Pattern) (side : String) :
    Option ℚ :=
  let padding := s.stoploss_padding_points
  match p.type with
  | .ErectHnS =>
      if side == "sell" && pyTruthy p.right_shoulder then
        some (orZero p.right_shoulder + padding)
      else none
  | .InvertedHnS =>
      if side == "buy" && pyTruthy p.right_shoulder then
        some (orZero p.right_shoulder - padding)
      else none
  | .DoubleTop =>
      if side == "sell" then
        some (max (orZero p.left_shoulder) (orZero p.right_shoulder) + padding)
      else none
  | .ErectRect =>
      if side == "buy" && pyTruthy p.rectangle_bottom then
        some (orZero p.rectangle_bottom - padding)
      else none
  | .InvRect =>
      if side == "sell" && pyTruthy p.rectangle_top then
        some (orZero p.rectangle_top + padding)
      else none

/-- `PositionSizer._calculate_atr_stoploss` (lines 163-186). -/
def atr_stoploss (s : PositionSizer) (ohlcv : List Candle)
    (entry_price : ℚ) (side : String) : ℚ :=
  let sl_distance := calculate_atr s ohlcv * s.atr_multiplier
  if side == "buy" then entry_price - sl_distance
  else entry_price + sl_distance

/-- `PositionSizer.calculate_stop_loss` (lines 87-114): the structural
rule when it applies, else an ATR stop around the latest close. -/
def calculate_stop_loss (s : PositionSizer) (p : Pattern)
    (ohlcv : List Candle) (side : String) : ℚ :=
  match structural_stoploss s p side with
  | some sl => sl
  | none => atr_stoploss s ohlcv (lastClose ohlcv) side

/-- `PositionSizer.calculate_take_profit` (lines 212-234). -/
def calculate_take_profit (s : PositionSizer) (entry_price : ℚ)
    (side : String) (pips : ℚ) : ℚ :=
  let pip_value := pips * s.pips_unit_in_usd
  if side == "buy" then entry_price + pip_value
  else entry_price - pip_value

/-- `PositionSizer.is_size_allowed` (lines 236-261): the size must lie
within `[min_size, max_size]` (defaults 0.0001 and 100.0). -/
def is_size_allowed (size min_size max_size : ℚ) : Bool :=
  if size < min_size then false
  else if size > max_size then false
  else true

/-! ## Risk Manager (`risk/risk_manager.py`) -/

/-- The `Trade` dataclass (risk_manager.py lines 9-24); the wall-clock
`timestamp` field is omitted. -/
structure Trade where
  order_id : String
  symbol : String
  side : String
  size : ℚ
  entry_price : ℚ
  stop_loss : ℚ
  take_profit : ℚ
  status : String := "open"
  pnl : ℚ := 0
  exit_price : ℚ := 0
  pattern_type : String := ""
  deriving DecidableEq

/-- One value of the `daily_stats` map: `{'trade_count': …, 'pnl': …}`. -/
structure DayStats where
  trade_count : ℕ
  pnl : ℚ
  deriving DecidableEq

/-- `RiskManager` state: limits plus the open/closed ledgers and the
per-day statistics map (an insertion-ordered association list, like a
Python dict keyed by ISO date strings). -/
structure RiskManager where
  max_concurrent_trades : ℕ := 3
  daily_loss_limit_pct : ℚ := 10/100
  max_trades_per_day : ℕ := 10
  open_trades : List Trade := []
  closed_trades : List Trade := []
  daily_stats : List (String × DayStats) := []
  deriving DecidableEq

/-- `self.daily_stats.get(day, {}).get(…, 0)`: the day's stats, or zeros. -/
def getDayStats (stats : List (String × DayStats)) (day : String) : DayStats :=
  ((stats.find? (fun e => e.1 == day)).map Prod.snd).getD ⟨0, 0⟩

/-- Write a day's entry back into the stats map (update in place if the
key exists, else append — Python dict insertion semantics). -/
def setDayStats (stats : List (String × DayStats)) (day : String)
    (v : DayStats) : List (String × DayStats) :=
  if (stats.find? (fun e => e.1 == day)).isSome then
    stats.map (fun e => if e.1 == day then (e.1, v) else e)
  else stats ++ [(day, v)]

/-- `RiskManager.can_open_trade` (lines 52-88): the four checks in
their fixed source order, each denial carrying that check's reason. -/
def can_open_trade (rm : RiskManager) (today : String)
    (account_balance : ℚ) (has_high_impact_news : Bool) : Bool × String :=
  if rm.open_trades.length ≥ rm.max_concurrent_trades then
    (false, "Max concurrent trades reached")
  else
    let daily_trades := (getDayStats rm.daily_stats today).trade_count
    if daily_trades ≥ rm.max_trades_per_day then
      (false, "Max daily trades reached")
    else
      let daily_pnl := (getDayStats rm.daily_stats today).pnl
      let max_loss := account_balance * rm.daily_loss_limit_pct
      if daily_pnl < -max_loss then
        (false, "Daily loss limit reached")
      else if has_high_impact_news then
        (false, "High-impact news nearby")
      else (true, "OK")

/-- `RiskManager.add_trade` (lines 90-109). -/
def add_trade (rm : RiskManager) (today : String) (trade : Trade) :
    RiskManager :=
  let d := getDayStats rm.daily_stats today
  { rm with
    open_trades := rm.open_trades ++ [trade]
    daily_stats := setDayStats rm.daily_stats today
      { d with trade_count := d.trade_count + 1 } }

/-- Remove the first open trade with the given order id (the effect of
`self.open_trades.remove(trade)` after the linear search found that
trade — dataclass equality cannot match any earlier entry because every
earlier entry has a different `order_id`). -/
def removeFirstById (order_id : String) : List Trade → List Trade
  | [] => []
  | t :: rest =>
      if t.order_id == order_id then rest
      else t :: removeFirstById order_id rest

/-- `RiskManager.close_trade` (lines 111-160): find the open trade by
id (a logged no-op when absent), compute signed PnL, move the trade to
the closed ledger, and accumulate today's PnL. -/
def close_trade (rm : RiskManager) (today : String) (order_id : String)
    (exit_price : ℚ) (status : String) : RiskManager :=
  match rm.open_trades.find? (fun t => t.order_id == order_id) with
  | none => rm
  | some trade =>
      let pnl :=
        if trade.side == "buy" then (exit_price - trade.entry_price) * trade.size
        else (trade.entry_price - exit_price) * trade.size
      let closedTrade :=
        { trade with exit_price := exit_price, pnl := pnl, status := status }
      let d := getDayStats rm.daily_stats today
      { rm with
        open_trades := removeFirstById order_id rm.open_trades
        closed_trades := rm.closed_trades ++ [closedTrade]
        daily_stats := setDayStats rm.daily_stats today
          { d with pnl := d.pnl + pnl } }

/-! ## Order Executor (`trading/executor.py`)

External exchange behaviour is abstracted: each `create_order` call
either yields an order dict or raises one of the CCXT error classes;
both outcomes are passed in as `Except` values. -/

/-- The fields of an exchange order dict used by `place_order`. -/
structure OrderDict where
  id : String
  price : Option ℚ := none
  deriving DecidableEq

/-- The CCXT exception classes `place_order` distinguishes. -/
inductive ExchError where
  | insufficientFunds
  | invalidOrder
  | networkError
  | other
  deriving DecidableEq

/-- `OrderExecutor.place_order`'s result object (executor.py lines 8-21). -/
structure OrderResult where
  success : Bool
  order_id : String := ""
  error : String := ""
  deriving DecidableEq

/-- `OrderExecutor._place_market_order` / `_place_limit_order`
(lines 177-210): any exception from the exchange call is caught and
logged, and `None` is returned. -/
def place_primary_order (r : Except ExchError OrderDict) : Option OrderDict :=
  match r with
  | .ok o => some o
  | .error _ => none

/-- `OrderExecutor._place_stop_loss` / `_place_take_profit`
(lines 212-296): reduce-only bracket legs; any exception is caught and
`None` returned. -/
def place_bracket_leg (r : Except ExchError OrderDict) : Option OrderDict :=
  match r with
  | .ok o => some o
  | .error _ => none

/-- `OrderExecutor.place_order` (lines 50-144). `dry_run_id` stands for
the timestamp-derived simulated id. In live mode the primary order is
placed first; a `None` primary yields a failed result with a message,
while bracket-leg failures are only logged (warnings) and the result
still reports success with the primary order id. Exchange errors never
escape: every path returns an `OrderResult`. -/
def place_order (trade_mode : String) (dry_run_id : String)
    (primary sl_leg tp_leg : Except ExchError OrderDict) : OrderResult :=
  if trade_mode == "dry_run" then
    { success := true, order_id := dry_run_id }
  else
    match place_primary_order primary with
    | none => { success := false, error := "Failed to place main order" }
    | some order =>
        let _sl_order := place_bracket_leg sl_leg
        let _tp_order := place_bracket_leg tp_leg
        { success := true, order_id := order.id }

/-! ## Strategy Orchestrator (`strategy.py`) -/

/-- `TradingStrategy._get_trade_side` (strategy.py lines 286-307). -/
def get_trade_side : PatternType → String
  | .ErectHnS => "sell"
  | .InvertedHnS => "buy"
  | .DoubleTop => "sell"
  | .ErectRect => "buy"
  | .InvRect => "sell"

/-- The order request `_process_pattern` hands to
`OrderExecutor.place_order`. -/
structure OrderRequest where
  side : String
  size : ℚ
  entry_price : ℚ
  sl_price : ℚ
  tp_price : ℚ
  deriving DecidableEq

/-- The decision part of `TradingStrategy._process_pattern`
(strategy.py lines 159-266): allow-list filter, retest confirmation,
side lookup, balance guard, stop/target/size computation, size
validation, then the risk gate; `none` models an early return before
`place_order` is invoked, `some` carries exactly the arguments passed
to `place_order`. -/
def process_pattern_order (allowed_patterns : List String)
    (sizer : PositionSizer) (take_profit_pips : ℚ)
    (rm : RiskManager) (today : String)
    (p : Pattern) (ohlcv : List Candle) (account_balance : ℚ) :
    Option OrderRequest :=
  if allowed_patterns.contains p.type.tag then
    if confirm_retest p ohlcv then
      let side := get_trade_side p.type
      let entry_price := lastClose ohlcv
      if account_balance ≤ 0 then none
      else
        let sl_price := calculate_stop_loss sizer p ohlcv side
        let tp_price := calculate_take_profit sizer entry_price side take_profit_pips
        let position_size :=
          calculate_position_size sizer account_balance entry_price sl_price
        if is_size_allowed position_size (1/10000) 100 then
          if (can_open_trade rm today account_balance false).1 then
            some ⟨side, position_size, entry_price, sl_price, tp_price⟩
          else none
        else none
    else none
  else none

/-- The trade record `_process_pattern` registers with the Risk Manager
when `place_order` reports success (strategy.py lines 253-280). -/
def process_pattern_registered (allowed_patterns : List String)
    (sizer : PositionSizer) (take_profit_pips : ℚ)
    (rm : RiskManager) (today : String) (symbol : String)
    (p : Pattern) (ohlcv : List Candle) (account_balance : ℚ)
    (order_result : OrderResult) : Option Trade :=
  match process_pattern_order allowed_patterns sizer take_profit_pips
      rm today p ohlcv account_balance with
  | none => none
  | some req =>
      if order_result.success then
        some { order_id := order_result.order_id
               symbol := symbol
               side := req.side
               size := req.size
               entry_price := req.entry_price
               stop_loss := req.sl_price
               take_profit := req.tp_price
               pattern_type := p.type.tag }
      else none

/-! ## Trend Classifier (`patterns/trend.py`) -/

inductive TrendType where
  | bullish
  | bearish
  | sideways
  deriving DecidableEq

/-- Centered rolling maximum equals the value itself: position `i` of a
series is a swing high for window radius `w` when the full window
`[i−w, i+w]` lies inside the series (pandas yields NaN otherwise, and
`NaN == value` is false) and no window value exceeds `vals[i]`. -/
def windowMaxIsSelf (vals : List ℚ) (w i : ℕ) : Bool :=
  decide (w ≤ i) && decide (i + w < vals.length) &&
    (List.range (2 * w + 1)).all
      (fun k => decide (vals.getD (i - w + k) 0 ≤ vals.getD i 0))

/-- Centered rolling minimum equals the value itself (swing low). -/
def windowMinIsSelf (vals : List ℚ) (w i : ℕ) : Bool :=
  decide (w ≤ i) && decide (i + w < vals.length) &&
    (List.range (2 * w + 1)).all
      (fun k => decide (vals.getD i 0 ≤ vals.getD (i - w + k) 0))

/-- The values of a series at its swing-high positions, in order. -/
def swingHighValues (vals : List ℚ) (w : ℕ) : List ℚ :=
  (List.range vals.length).filterMap
    (fun i => if windowMaxIsSelf vals w i then some (vals.getD i 0) else none)

/-- The values of a series at its swing-low positions, in order. -/
def swingLowValues (vals : List ℚ) (w : ℕ) : List ℚ :=
  (List.range vals.length).filterMap
    (fun i => if windowMinIsSelf vals w i then some (vals.getD i 0) else none)

/-- All adjacent pairs strictly increasing. -/
def chainLt : List ℚ → Bool
  | [] => true
  | [_] => true
  | a :: b :: rest => decide (a < b) && chainLt (b :: rest)

/-- All adjacent pairs strictly decreasing. -/
def chainGt : List ℚ → Bool
  | [] => true
  | [_] => true
  | a :: b :: rest => decide (a > b) && chainGt (b :: rest)

/-- `TrendDetector._detect_hh_hl_trend` (trend.py lines 55-91): the
last three swing highs and lows of the lookback window; strictly
higher highs and higher lows ⇒ bullish, strictly lower both ⇒ bearish,
else (or with fewer than 2 of either) sideways. -/
def detect_hh_hl_trend (lookback_period : ℕ) (ohlcv : List Candle) :
    TrendType :=
  let df := lastN lookback_period ohlcv
  let swing_highs := lastN 3 (swingHighValues (df.map (·.high)) 5)
  let swing_lows := lastN 3 (swingLowValues (df.map (·.low)) 5)
  if 2 ≤ swing_highs.length ∧ 2 ≤ swing_lows.length then
    if chainLt swing_highs && chainLt swing_lows then .bullish
    else if chainGt swing_highs && chainGt swing_lows then .bearish
    else .sideways
  else .sideways

/-- `ewm(span, adjust=False).mean()`: `y₀ = x₀`,
`yₜ = α·xₜ + (1−α)·yₜ₋₁` with `α = 2/(span+1)`. -/
def ewmFrom (alpha acc : ℚ) : List ℚ → List ℚ
  | [] => []
  | x :: rest =>
      let next := alpha * x + (1 - alpha) * acc
      next :: ewmFrom alpha next rest

/-- The full exponentially-weighted mean series. -/
def ewmMean (alpha : ℚ) : List ℚ → List ℚ
  | [] => []
  | x :: rest => x :: ewmFrom alpha x rest

/-- `series.iloc[-k]`: the `k`-th element from the end (0 when out of
range, which the source never reaches on the paths under scrutiny). -/
def fromEnd (l : List ℚ) (k : ℕ) : ℚ := l.getD (l.length - k) 0

/-- `TrendDetector._detect_ma_trend` (trend.py lines 93-124): EMA-20 /
EMA-50 alignment of the latest bar, or a crossover against the bar 5
positions back (the latest bar itself when fewer than 5 exist). -/
def detect_ma_trend (lookback_period : ℕ) (ohlcv : List Candle) :
    TrendType :=
  let df := lastN lookback_period ohlcv
  let closes := df.map (·.close)
  let ema_20 := ewmMean (2/21) closes
  let ema_50 := ewmMean (2/51) closes
  let latest_close := fromEnd closes 1
  let latest_e20 := fromEnd ema_20 1
  let latest_e50 := fromEnd ema_50 1
  let prev_k := if 5 ≤ closes.length then 5 else 1
  let prev_e20 := fromEnd ema_20 prev_k
  let prev_e50 := fromEnd ema_50 prev_k
  let price_above_ma := latest_close > latest_e20 ∧ latest_e20 > latest_e50
  let price_below_ma := latest_close < latest_e20 ∧ latest_e20 < latest_e50
  let bullish_cross := prev_e20 ≤ prev_e50 ∧ latest_e20 > latest_e50
  let bearish_cross := prev_e20 ≥ prev_e50 ∧ latest_e20 < latest_e50
  if price_above_ma ∨ bullish_cross then .bullish
  else if price_below_ma ∨ bearish_cross then .bearish
  else .sideways

/-- `TrendDetector._detect_slope_trend` (trend.py lines 126-154): the
ordinary-least-squares slope of the closes against bar index (what
`np.polyfit(x, y, 1)[0]` computes), normalized by the mean close into
percent per bar, against a ±0.05 threshold. Degenerate denominators
(singular fit, zero mean price) read as 0 under total division. -/
def detect_slope_trend (lookback_period : ℕ) (ohlcv : List Candle) :
    TrendType :=
  let df := lastN lookback_period ohlcv
  let ys := df.map (·.close)
  let n : ℚ := (ys.length : ℚ)
  let xs := (List.range ys.length).map (fun i => (i : ℚ))
  let sum_x := xs.sum
  let sum_y := ys.sum
  let sum_xy := ((xs.zip ys).map (fun q => q.1 * q.2)).sum
  let sum_xx := (xs.map (fun x => x * x)).sum
  let slope := (n * sum_xy - sum_x * sum_y) / (n * sum_xx - sum_x * sum_x)
  let avg_price := sum_y / n
  let normalized_slope := slope / avg_price * 100
  if normalized_slope > 1/20 then .bullish
  else if normalized_slope < -(1/20) then .bearish
  else .sideways

/-- `TrendDetector.detect_trend` (trend.py lines 24-53): sideways on a
series shorter than the lookback, else the three sub-detector results
combined by counting. -/
def detect_trend (lookback_period : ℕ) (ohlcv : List Candle) : TrendType :=
  if ohlcv.length < lookback_period then .sideways
  else
    let trends := [detect_hh_hl_trend lookback_period ohlcv,
                   detect_ma_trend lookback_period ohlcv,
                   detect_slope_trend lookback_period ohlcv]
    let bullish_count := trends.count .bullish
    let bearish_count := trends.count .bearish
    if bullish_count ≥ 2 then .bullish
    else if bearish_count ≥ 2 then .bearish
    else .sideways

/-- The spec's reading of the combination rule: a 2-of-3 majority vote
over the three sub-detector verdicts, sideways absent a majority. -/
def majorityVote (a b c : TrendType) : TrendType :=
  let bulls := (if a = .bullish then 1 else 0) + (if b = .bullish then 1 else 0)
    + (if c = .bullish then 1 else 0)
  let bears := (if a = .bearish then 1 else 0) + (if b = .bearish then 1 else 0)
    + (if c = .bearish then 1 else 0)
  if 2 ≤ bulls then .bullish
  else if 2 ≤ bears then .bearish
  else .sideways

/-! ## Pattern Detector: head and shoulders (`patterns/detector.py`) -/

/-- Minimum of a nonempty list of rationals (0 on the empty list, which
the slices below never produce for a valid triple). -/
def listMinD : List ℚ → ℚ
  | [] => 0
  | x :: rest => rest.foldl min x

/-- Maximum of a nonempty list of rationals. -/
def listMaxD : List ℚ → ℚ
  | [] => 0
  | x :: rest => rest.foldl max x

/-- `df.loc[a:b, col]`: the inclusive positional slice `[a, b]` of a
series (pandas label slicing on the default range index). -/
def sliceIncl (l : List ℚ) (a b : ℕ) : List ℚ := (l.drop a).take (b + 1 - a)

/-- The swing-point positions `_detect_head_and_shoulders` iterates
over: centered rolling extremum with radius 5 on highs (erect) or lows
(inverted). -/
def hnsSwingIdx (erect : Bool) (ohlcv : List Candle) : List ℕ :=
  if erect then
    (List.range ohlcv.length).filter (windowMaxIsSelf (ohlcv.map (·.high)) 5)
  else
    (List.range ohlcv.length).filter (windowMinIsSelf (ohlcv.map (·.low)) 5)

/-- All consecutive triples of a list (`swing_points` indices `i`,
`i+1`, `i+2`). -/
def consecutiveTriples : List ℕ → List (ℕ × ℕ × ℕ)
  | a :: b :: c :: rest => (a, b, c) :: consecutiveTriples (b :: c :: rest)
  | _ => []

/-- The shoulder symmetry measure of `_detect_head_and_shoulders`
(detector.py lines 138-141): `|left − right| / avg`, read as 1 when the
average is zero. -/
def shoulderSym (left_price right_price : ℚ) : ℚ :=
  let shoulder_avg := (left_price + right_price) / 2
  if shoulder_avg ≠ 0 then |left_price - right_price| / shoulder_avg else 1

/-- The body of the candidate loop of `_detect_head_and_shoulders`
(detector.py lines 119-178) for one consecutive swing triple: structure
check, symmetry check, neckline from the inter-shoulder troughs (erect)
or peaks (inverted), staleness cutoff, confidence `1 − ratio`. -/
def hnsCandidate (symmetry_tolerance : ℚ) (erect : Bool)
    (ohlcv : List Candle) (left_idx head_idx right_idx : ℕ) :
    Option Pattern :=
  let price := fun i =>
    if erect then (ohlcv.map (·.high)).getD i 0 else (ohlcv.map (·.low)).getD i 0
  let left_price := price left_idx
  let head_price := price head_idx
  let right_price := price right_idx
  let structure_ok :=
    if erect then head_price > left_price ∧ head_price > right_price
    else head_price < left_price ∧ head_price < right_price
  if ¬ structure_ok then none
  else
    let symmetry_ratio := shoulderSym left_price right_price
    if symmetry_ratio > symmetry_tolerance then none
    else
      let neckline :=
        if erect then
          (listMinD (sliceIncl (ohlcv.map (·.low)) left_idx head_idx)
            + listMinD (sliceIncl (ohlcv.map (·.low)) head_idx right_idx)) / 2
        else
          (listMaxD (sliceIncl (ohlcv.map (·.high)) left_idx head_idx)
            + listMaxD (sliceIncl (ohlcv.map (·.high)) head_idx right_idx)) / 2
      let confidence := 1 - symmetry_ratio
      let bars_since := ohlcv.length - right_idx
      if bars_since > 20 then none
      else
        some { type := if erect then .ErectHnS else .InvertedHnS
               formation_bar_index := right_idx
               neckline_price := neckline
               left_shoulder := some left_price
               head := some head_price
               right_shoulder := some right_price
               confidence := confidence }

/-- `PatternDetector._detect_head_and_shoulders` (detector.py lines
86-180): every consecutive swing triple that passes all checks yields a
pattern, in order. -/
def detect_head_and_shoulders (symmetry_tolerance : ℚ) (erect : Bool)
    (ohlcv : List Candle) : List Pattern :=
  let swing_points := hnsSwingIdx erect ohlcv
  if swing_points.length < 3 then []
  else
    (consecutiveTriples swing_points).filterMap
      (fun t => hnsCandidate symmetry_tolerance erect ohlcv t.1 t.2.1 t.2.2)

/-! ## Spec-side predicates -/

/-- The key level of a pattern as the retest spec names it: the right
shoulder for head-and-shoulders patterns, the neckline for double top
and rectangle patterns. -/
def keyLevel (p : Pattern) : ℚ :=
  match p.type with
  | .ErectHnS => orZero p.right_shoulder
  | .InvertedHnS => orZero p.right_shoulder
  | _ => p.neckline_price

/-- Spec condition (a) of retest confirmation: price touched within 2%
of the key level at some point in the last 5 bars. -/
def touchedWithinTwoPct (p : Pattern) (ohlcv : List Candle) : Prop :=
  ∃ c ∈ lastN 5 (lastN 10 ohlcv),
    |c.high - keyLevel p| ≤ keyLevel p * (2/100) ∨
    |c.low - keyLevel p| ≤ keyLevel p * (2/100)

/-- Spec condition (b) of retest confirmation, as the code actually
implements it: the current close has moved away from the key level in
the breakout direction by more than 2% for head-and-shoulders and
double-top patterns, but only by more than 1% for rectangle breakouts. -/
def movedAwayFromLevel (p : Pattern) (ohlcv : List Candle) : Prop :=
  match p.type with
  | .ErectHnS => lastClose ohlcv < keyLevel p * (98/100)
  | .InvertedHnS => keyLevel p * (102/100) < lastClose ohlcv
  | .DoubleTop => lastClose ohlcv < keyLevel p * (98/100)
  | .ErectRect => keyLevel p * (101/100) < lastClose ohlcv
  | .InvRect => lastClose ohlcv < keyLevel p * (99/100)

/-- Geometry facts the detector establishes for every pattern it emits
(on well-formed candles, a double top's neckline is the trough below
the two peaks, and a rectangle's support lies below its resistance,
which is the broken level for an upward breakout and above it for a
downward one). -/
def PatternConsistent (p : Pattern) : Prop :=
  match p.type with
  | .DoubleTop =>
      p.neckline_price ≤ max (orZero p.left_shoulder) (orZero p.right_shoulder)
  | .ErectRect => orZero p.rectangle_bottom ≤ p.neckline_price
  | .InvRect => p.neckline_price ≤ orZero p.rectangle_top
  | _ => True

/-! ## Concrete sample inputs -/

/-- An upward rectangle breakout pattern at level 100. -/
def rectPat : Pattern :=
  { type := .ErectRect
    formation_bar_index := 0
    neckline_price := 100
    rectangle_top := some 100
    rectangle_bottom := some 90
    confidence := 7/10 }

/-- Five bars hovering 1-2% above the broken level 100, closing at
101.5 — inside the 2% band yet past the 1% rejection threshold. -/
def rectCandles : List Candle :=
  List.replicate 5 ⟨101, 102, 101, 203/2, 0⟩

/-- Highs for a clean three-swing series: shoulders at 110 and `x`
around a head at 150, on a flat baseline of 100 (swing positions 5, 11
and 17 of 23 bars). -/
def hnsHighs (x : ℚ) : List ℚ :=
  [100, 100, 100, 100, 100, 110, 100, 100, 100, 100, 100, 150,
   100, 100, 100, 100, 100, x, 100, 100, 100, 100, 100]

/-- The candle series carrying `hnsHighs x` with flat lows at 90. -/
def hnsSeries (x : ℚ) : List Candle :=
  (hnsHighs x).map (fun h => ⟨100, h, 90, 95, 0⟩)

/-- The single pattern the detector emits on `hnsSeries 125`. -/
def hnsPattern125 : Pattern :=
  { type := .ErectHnS
    formation_bar_index := 17
    neckline_price := 90
    left_shoulder := some 110
    head := some 150
    right_shoulder := some 125
    confidence := 41/47 }

/-- A flat two-candle series. -/
def twoCandles : List Candle := List.replicate 2 ⟨1, 1, 1, 1, 0⟩

/-- A bare double-top pattern at neckline 100. -/
def dtPat : Pattern :=
  { type := .DoubleTop, formation_bar_index := 0, neckline_price := 100 }

/-- A single-candle series. -/
def oneBar : List Candle := [⟨1, 1, 1, 1, 0⟩]

/-- The trade the orchestrator registers on the sample rectangle
retest (balance 10000, default sizer, 50-pip target, fresh risk
manager, successful order "X"). -/
def c6Trade : Trade :=
  { order_id := "X", symbol := "BTC/USD", side := "buy", size := 400/43,
    entry_price := 203/2, stop_loss := 80, take_profit := 303/2,
    pattern_type := "ErectRect" }

/-- A sample open trade. -/
def sampleTrade (oid : String) : Trade :=
  { order_id := oid, symbol := "BTC/USD", side := "buy", size := 1,
    entry_price := 100, stop_loss := 95, take_profit := 110 }

/-- A risk manager holding one open trade with order id "A". -/
def rmOneOpen : RiskManager := { open_trades := [sampleTrade "A"] }

/-- A risk manager at its concurrency limit (3 open trades, limit 3)
with a comfortably positive daily PnL. -/
def rmThreeOpen : RiskManager :=
  { open_trades := [sampleTrade "A", sampleTrade "B", sampleTrade "C"],
    daily_stats := [("2026-10-12", ⟨3, 500⟩)] }

/-! ## Helper lemmas -/

theorem getLast?_drop_of_lt (l : List α) (k : ℕ) (h : k < l.length) :
    (l.drop k).getLast? = l.getLast? := by
  induction l generalizing k with
  | nil => simp at h
  | cons a tl ih =>
    cases k with
    | zero => rfl
    | succ k =>
      have h2 : k < tl.length := by simpa using h
      have htl : tl ≠ [] := by
        intro hnil
        rw [hnil] at h2
        simp at h2
      obtain ⟨b, tl2, rfl⟩ := List.exists_cons_of_ne_nil htl
      rw [List.drop_succ_cons, ih k h2, List.getLast?_cons_cons]

theorem lastClose_lastN (n : ℕ) (cs : List Candle) (h1 : 0 < n)
    (h2 : cs ≠ []) : lastClose (lastN n cs) = lastClose cs := by
  have hlen : 0 < cs.length := List.length_pos.mpr h2
  unfold lastClose lastN
  rw [getLast?_drop_of_lt _ _ (Nat.sub_lt hlen h1)]

theorem is_size_allowed_bounds {s a b : ℚ}
    (h : is_size_allowed s a b = true) : a ≤ s ∧ s ≤ b := by
  unfold is_size_allowed at h
  split_ifs at h with h1 h2
  exact ⟨le_of_not_lt h1, le_of_not_lt h2⟩

theorem calculate_position_size_ne_zero {s : PositionSizer}
    {balance entry stop : ℚ}
    (h : calculate_position_size s balance entry stop ≠ 0) :
    0 < balance ∧ 0 < entry ∧ 0 < stop ∧ entry ≠ stop := by
  unfold calculate_position_size at h
  split_ifs at h with h1 h2
  · exact absurd rfl h
  · exact absurd rfl h
  · replace h : (if |entry - stop| = 0 then (0 : ℚ)
        else balance * s.risk_pct / |entry - stop|) ≠ 0 := h
    push_neg at h1 h2
    refine ⟨h1, h2.1, h2.2, ?_⟩
    intro heq
    rw [if_pos (by rw [heq, sub_self, abs_zero])] at h
    exact h rfl

/-- Everything a successful retest confirmation implies, by pattern
kind: the touch of the key level within the 2% tolerance during the
last 5 bars, and the kind-specific rejection inequality on the current
close. -/
theorem confirm_retest_unfolded (p : Pattern) (ohlcv : List Candle)
    (h : confirm_retest p ohlcv = true) :
    5 ≤ ohlcv.length ∧
    (match p.type with
     | .ErectHnS =>
         (∃ c ∈ lastN 5 (lastN 10 ohlcv),
           |c.high - orZero p.right_shoulder| ≤ orZero p.right_shoulder * (2/100)) ∧
         lastClose ohlcv < orZero p.right_shoulder * (98/100)
     | .InvertedHnS =>
         (∃ c ∈ lastN 5 (lastN 10 ohlcv),
           |c.low - orZero p.right_shoulder| ≤ orZero p.right_shoulder * (2/100)) ∧
         orZero p.right_shoulder * (102/100) < lastClose ohlcv
     | .DoubleTop =>
         (∃ c ∈ lastN 5 (lastN 10 ohlcv),
           |c.low - p.neckline_price| ≤ p.neckline_price * (2/100)) ∧
         lastClose ohlcv < p.neckline_price * (98/100)
     | .ErectRect =>
         (∃ c ∈ lastN 5 (lastN 10 ohlcv),
           |c.low - p.neckline_price| ≤ p.neckline_price * (2/100)) ∧
         p.neckline_price * (101/100) < lastClose ohlcv
     | .InvRect =>
         (∃ c ∈ lastN 5 (lastN 10 ohlcv),
           |c.high - p.neckline_price| ≤ p.neckline_price * (2/100)) ∧
         lastClose ohlcv < p.neckline_price * (99/100)) := by
  unfold confirm_retest at h
  split at h
  · exact absurd h (by simp)
  next hlen =>
    push_neg at hlen
    have hne : ohlcv ≠ [] := by
      intro hx
      rw [hx] at hlen
      simp at hlen
    have hlc : lastClose (lastN 10 ohlcv) = lastClose ohlcv :=
      lastClose_lastN 10 ohlcv (by norm_num) hne
    refine ⟨hlen, ?_⟩
    cases htp : p.type <;>
      simp only [htp, Bool.and_eq_true, List.any_eq_true,
        decide_eq_true_eq] at h ⊢ <;>
      rw [hlc] at h <;>
      exact h

/-- **C10**: `confirm_retest` returns false on any series of fewer than
5 bars, for every pattern. -/
theorem confirm_retest_needs_five_bars (p : Pattern) (ohlcv : List Candle)
    (h : ohlcv.length < 5) : confirm_retest p ohlcv = false := by
  unfold confirm_retest
  rw [if_pos h]

/-- **C10** witness: a one-bar series is never retest-confirmed. -/
theorem confirm_retest_needs_five_bars_witness :
    oneBar.length < 5 ∧ confirm_retest dtPat oneBar = false :=
  ⟨by decide, confirm_retest_needs_five_bars dtPat oneBar (by decide)⟩

unseal Rat.mul Rat.inv Rat.add Rat.sub in
/-- **C1** counterexample: for an upward rectangle breakout at level
100, `confirm_retest` already returns true when the close has moved
only 1.5% above the level — the claimed uniform 2% move-away threshold
does not hold for rectangle patterns. -/
theorem rect_retest_without_two_percent_move :
    confirm_retest rectPat rectCandles = true ∧
      ¬ rectPat.neckline_price * (102/100) ≤ lastClose rectCandles := by
  constructor <;> decide

/-- **C1** (amended): `confirm_retest` returns true only if the key
level (right shoulder for H&S, neckline for double top and rectangles)
was touched within 2% during the last 5 bars and the close has moved
away from the level in the breakout direction — by more than 2% for
head-and-shoulders and double-top patterns, and by more than 1% for
rectangle breakouts. -/
theorem confirm_retest_amended (p : Pattern) (ohlcv : List Candle)
    (h : confirm_retest p ohlcv = true) :
    5 ≤ ohlcv.length ∧ touchedWithinTwoPct p ohlcv ∧
      movedAwayFromLevel p ohlcv := by
  obtain ⟨hlen, hrest⟩ := confirm_retest_unfolded p ohlcv h
  refine ⟨hlen, ?_, ?_⟩
  · cases htp : p.type <;>
      simp only [htp] at hrest <;>
      simp only [touchedWithinTwoPct, keyLevel, htp] <;>
      obtain ⟨⟨c, hc, hcp⟩, hm⟩ := hrest <;>
      first
        | exact ⟨c, hc, Or.inl hcp⟩
        | exact ⟨c, hc, Or.inr hcp⟩
  · cases htp : p.type <;>
      simp only [htp] at hrest <;>
      simp only [movedAwayFromLevel, keyLevel, htp] <;>
      exact hrest.2

unseal Rat.mul Rat.inv Rat.add Rat.sub in
/-- **C1** witness: the amended statement applied to the concrete
rectangle retest. -/
theorem confirm_retest_amended_witness :
    confirm_retest rectPat rectCandles = true ∧
      (5 ≤ rectCandles.length ∧ touchedWithinTwoPct rectPat rectCandles ∧
        movedAwayFromLevel rectPat rectCandles) :=
  ⟨by decide, confirm_retest_amended rectPat rectCandles (by decide)⟩

/-- **C2**: for every positive balance, positive entry and positive
stop with entry distinct from the stop, `calculate_position_size`
returns exactly `(balance × risk_pct) / |entry − stop|`. -/
theorem calculate_position_size_formula (s : PositionSizer)
    (balance entry stop : ℚ) (hb : 0 < balance) (he : 0 < entry)
    (hs : 0 < stop) (hne : entry ≠ stop) :
    calculate_position_size s balance entry stop =
      balance * s.risk_pct / |entry - stop| := by
  unfold calculate_position_size
  rw [if_neg (not_le.mpr hb), if_neg (by push_neg; exact ⟨he, hs⟩)]
  exact if_neg (by rw [abs_eq_zero, sub_eq_zero]; exact hne)

unseal Rat.mul Rat.inv Rat.add Rat.sub in
/-- **C2** witness: balance 10000, risk 2%, entry 100, stop 95 sizes to
exactly 40. -/
theorem calculate_position_size_formula_witness :
    (0 : ℚ) < 10000 ∧ (0 : ℚ) < 100 ∧ (0 : ℚ) < 95 ∧ (100 : ℚ) ≠ 95 ∧
      calculate_position_size {} 10000 100 95 = 40 :=
  ⟨by decide, by decide, by decide, by decide, by
    rw [calculate_position_size_formula {} 10000 100 95
      (by decide) (by decide) (by decide) (by decide)]
    decide⟩

unseal Rat.mul Rat.inv Rat.add Rat.sub in
/-- **C3**: with a non-negative configured risk percentage the computed
position size is never negative; it is exactly 0 whenever the balance,
the entry or the stop is non-positive or the entry equals the stop;
size 0 fails `is_size_allowed` under the default limits; and the
orchestrator's per-pattern processing only ever reaches `place_order`
with a size that passed `is_size_allowed` — in particular never 0. -/
theorem position_size_zero_never_reaches_executor (s : PositionSizer)
    (hrp : 0 ≤ s.risk_pct) :
    (∀ balance entry stop, 0 ≤ calculate_position_size s balance entry stop) ∧
    (∀ balance entry stop,
      balance ≤ 0 ∨ entry ≤ 0 ∨ stop ≤ 0 ∨ entry = stop →
      calculate_position_size s balance entry stop = 0) ∧
    is_size_allowed 0 (1/10000) 100 = false ∧
    (∀ (allowed : List String) (tp_pips : ℚ) (rm : RiskManager)
        (today : String) (p : Pattern) (ohlcv : List Candle)
        (balance : ℚ) (req : OrderRequest),
      process_pattern_order allowed s tp_pips rm today p ohlcv balance =
        some req →
      is_size_allowed req.size (1/10000) 100 = true ∧ req.size ≠ 0) := by
  refine ⟨?_, ?_, by decide, ?_⟩
  · intro balance entry stop
    unfold calculate_position_size
    split_ifs with h1 h2
    · exact le_refl 0
    · exact le_refl 0
    · show 0 ≤ if |entry - stop| = 0 then (0 : ℚ)
        else balance * s.risk_pct / |entry - stop|
      split_ifs with h3
      · exact le_refl 0
      · push_neg at h1
        exact div_nonneg (mul_nonneg (le_of_lt h1) hrp) (abs_nonneg _)
  · intro balance entry stop h
    unfold calculate_position_size
    split_ifs with h1 h2
    · rfl
    · rfl
    · show (if |entry - stop| = 0 then (0 : ℚ)
        else balance * s.risk_pct / |entry - stop|) = 0
      push_neg at h1 h2
      rcases h with h | h | h | h
      · exact absurd h (not_le.mpr h1)
      · exact absurd h (not_le.mpr h2.1)
      · exact absurd h (not_le.mpr h2.2)
      · rw [if_pos (by rw [h, sub_self, abs_zero])]
  · intro allowed tp_pips rm today p ohlcv balance req hreq
    unfold process_pattern_order at hreq
    simp only [] at hreq
    split_ifs at hreq with h1 h2 h3 h4 h5
    injection hreq with hreq
    subst hreq
    refine ⟨h4, ?_⟩
    have hlow := (is_size_allowed_bounds h4).1
    have hpos : (0 : ℚ) < 1/10000 := by norm_num
    exact ne_of_gt (lt_of_lt_of_le hpos hlow)

unseal Rat.mul Rat.inv Rat.add Rat.sub in
/-- **C3** witness: the default sizer has non-negative risk, sizes the
zero-distance input 100/100 to 0, and 0 is rejected by the default
limits. -/
theorem position_size_zero_never_reaches_executor_witness :
    (0 : ℚ) ≤ ({} : PositionSizer).risk_pct ∧
      calculate_position_size {} 10000 100 100 = 0 ∧
      is_size_allowed 0 (1/10000) 100 = false :=
  ⟨by decide,
    (position_size_zero_never_reaches_executor {} (by decide)).2.1
      10000 100 100 (Or.inr (Or.inr (Or.inr rfl))),
    (position_size_zero_never_reaches_executor {} (by decide)).2.2.1⟩

/-- **C4**: `can_open_trade` evaluates its four checks in the fixed
source order — concurrency, daily trade count, daily loss, news — and
denies with the first failing check's reason, approving only when all
pass; in particular a manager at its concurrency limit denies with the
concurrency reason regardless of balance, PnL or news. -/
theorem can_open_trade_fixed_order (rm : RiskManager) (today : String)
    (balance : ℚ) (news : Bool) :
    (rm.max_concurrent_trades ≤ rm.open_trades.length →
      can_open_trade rm today balance news =
        (false, "Max concurrent trades reached")) ∧
    (rm.open_trades.length < rm.max_concurrent_trades →
      rm.max_trades_per_day ≤ (getDayStats rm.daily_stats today).trade_count →
      can_open_trade rm today balance news =
        (false, "Max daily trades reached")) ∧
    (rm.open_trades.length < rm.max_concurrent_trades →
      (getDayStats rm.daily_stats today).trade_count < rm.max_trades_per_day →
      (getDayStats rm.daily_stats today).pnl <
        -(balance * rm.daily_loss_limit_pct) →
      can_open_trade rm today balance news =
        (false, "Daily loss limit reached")) ∧
    (rm.open_trades.length < rm.max_concurrent_trades →
      (getDayStats rm.daily_stats today).trade_count < rm.max_trades_per_day →
      ¬ (getDayStats rm.daily_stats today).pnl <
        -(balance * rm.daily_loss_limit_pct) →
      news = true →
      can_open_trade rm today balance news =
        (false, "High-impact news nearby")) ∧
    (rm.open_trades.length < rm.max_concurrent_trades →
      (getDayStats rm.daily_stats today).trade_count < rm.max_trades_per_day →
      ¬ (getDayStats rm.daily_stats today).pnl <
        -(balance * rm.daily_loss_limit_pct) →
      news = false →
      can_open_trade rm today balance news = (true, "OK")) := by
  refine ⟨fun h1 => ?_, fun h1 h2 => ?_, fun h1 h2 h3 => ?_,
    fun h1 h2 h3 h4 => ?_, fun h1 h2 h3 h4 => ?_⟩ <;>
    unfold can_open_trade <;>
    simp only [] <;>
    split_ifs with g1 g2 g3 g4 <;>
    first
      | rfl
      | omega
      | (exact absurd h3 g3)
      | (exact absurd g3 h3)
      | simp_all

/-- **C4** witness: three open trades against a limit of three deny
with the concurrency reason even with a large balance and positive
daily PnL. -/
theorem can_open_trade_fixed_order_witness :
    rmThreeOpen.max_concurrent_trades ≤ rmThreeOpen.open_trades.length ∧
      can_open_trade rmThreeOpen "2026-10-12" 1000000 false =
        (false, "Max concurrent trades reached") :=
  ⟨by decide,
    (can_open_trade_fixed_order rmThreeOpen "2026-10-12" 1000000 false).1
      (by decide)⟩

/-- **C5**: closing an order id that is not in the open set leaves the
risk manager's entire state — open set, closed set and daily stats —
unchanged, so a second close of the same trade never double-counts its
PnL. -/
theorem close_trade_unknown_id_noop (rm : RiskManager)
    (today order_id : String) (exit_price : ℚ) (status : String)
    (h : ∀ t ∈ rm.open_trades, t.order_id ≠ order_id) :
    close_trade rm today order_id exit_price status = rm := by
  unfold close_trade
  have hf : rm.open_trades.find? (fun t => t.order_id == order_id) = none := by
    rw [List.find?_eq_none]
    intro t ht
    simpa using h t ht
  rw [hf]

/-- **C5** witness: closing the absent id "B" is a no-op on a manager
holding only trade "A". -/
theorem close_trade_unknown_id_noop_witness :
    (∀ t ∈ rmOneOpen.open_trades, t.order_id ≠ "B") ∧
      close_trade rmOneOpen "2026-10-12" "B" 50 "closed" = rmOneOpen :=
  ⟨by decide,
    close_trade_unknown_id_noop rmOneOpen "2026-10-12" "B" 50 "closed"
      (by decide)⟩

/-- **C7**: in live mode a successful primary order yields a successful
result carrying the primary order id whatever happens to the stop-loss
and take-profit legs, and a primary-order exchange error (insufficient
funds, invalid order, network failure, or anything else — all caught
inside the order helpers) yields a failed result with a message rather
than an exception: `place_order` is total and every error input maps to
a failure value. -/
theorem place_order_live_result_policy :
    (∀ (od : OrderDict) (sl_leg tp_leg : Except ExchError OrderDict)
        (dry_run_id : String),
      place_order "live" dry_run_id (.ok od) sl_leg tp_leg =
        { success := true, order_id := od.id }) ∧
    (∀ (e : ExchError) (sl_leg tp_leg : Except ExchError OrderDict)
        (dry_run_id : String),
      place_order "live" dry_run_id (.error e) sl_leg tp_leg =
        { success := false, error := "Failed to place main order" }) := by
  constructor <;> intros <;> rfl

/-- **C8**: `detect_trend` on a series at least as long as the lookback
is exactly the 2-of-3 majority vote of the swing-structure,
moving-average and regression-slope sub-detectors, and on a shorter
series it returns sideways rather than an error. -/
theorem detect_trend_majority (lookback : ℕ) (ohlcv : List Candle) :
    (lookback ≤ ohlcv.length →
      detect_trend lookback ohlcv =
        majorityVote (detect_hh_hl_trend lookback ohlcv)
          (detect_ma_trend lookback ohlcv)
          (detect_slope_trend lookback ohlcv)) ∧
    (ohlcv.length < lookback → detect_trend lookback ohlcv = .sideways) := by
  constructor
  · intro h
    unfold detect_trend
    rw [if_neg (not_lt.mpr h)]
    generalize detect_hh_hl_trend lookback ohlcv = a
    generalize detect_ma_trend lookback ohlcv = b
    generalize detect_slope_trend lookback ohlcv = c
    cases a <;> cases b <;> cases c <;> rfl
  · intro h
    unfold detect_trend
    rw [if_pos h]

unseal Rat.mul Rat.inv Rat.add Rat.sub in
/-- **C8** witness: the majority-vote characterization applied to a
flat two-candle series with lookback 2. -/
theorem detect_trend_majority_witness :
    2 ≤ twoCandles.length ∧
      detect_trend 2 twoCandles =
        majorityVote (detect_hh_hl_trend 2 twoCandles)
          (detect_ma_trend 2 twoCandles) (detect_slope_trend 2 twoCandles) :=
  ⟨by decide, (detect_trend_majority 2 twoCandles).1 (by decide)⟩

theorem consecutiveTriples_length (l : List ℕ) (t : ℕ × ℕ × ℕ)
    (h : t ∈ consecutiveTriples l) : 3 ≤ l.length := by
  match l with
  | [] => simp [consecutiveTriples] at h
  | [a] => simp [consecutiveTriples] at h
  | [a, b] => simp [consecutiveTriples] at h
  | a :: b :: c :: rest => simp [List.length_cons]

unseal Rat.mul Rat.inv Rat.add Rat.sub in
/-- **C9**: the head-and-shoulders scan never emits a candidate whose
shoulder symmetry ratio exceeds the tolerance, and every emitted
pattern carries confidence `1 − ratio`; conversely every consecutive
swing triple whose candidate passes all checks is emitted. Concretely,
with tolerance 0.15 the shoulders 110/130 (ratio 1/6) produce no
pattern while the shoulders 110/125 (ratio 6/47) produce exactly one,
with confidence 41/47. -/
theorem hns_symmetry_gate :
    (∀ (tol : ℚ) (erect : Bool) (ohlcv : List Candle) (p : Pattern),
      p ∈ detect_head_and_shoulders tol erect ohlcv →
      shoulderSym (orZero p.left_shoulder) (orZero p.right_shoulder) ≤ tol ∧
      p.confidence =
        1 - shoulderSym (orZero p.left_shoulder) (orZero p.right_shoulder)) ∧
    (∀ (tol : ℚ) (erect : Bool) (ohlcv : List Candle) (t : ℕ × ℕ × ℕ)
        (p : Pattern),
      t ∈ consecutiveTriples (hnsSwingIdx erect ohlcv) →
      hnsCandidate tol erect ohlcv t.1 t.2.1 t.2.2 = some p →
      p ∈ detect_head_and_shoulders tol erect ohlcv) ∧
    detect_head_and_shoulders (3/20) true (hnsSeries 130) = [] ∧
    detect_head_and_shoulders (3/20) true (hnsSeries 125) = [hnsPattern125] := by
  refine ⟨?_, ?_, by decide, by decide⟩
  · intro tol erect ohlcv p hp
    unfold detect_head_and_shoulders at hp
    simp only [] at hp
    split_ifs at hp with hlen
    · exact absurd hp (List.not_mem_nil p)
    · rw [List.mem_filterMap] at hp
      obtain ⟨t, _, hc⟩ := hp
      unfold hnsCandidate at hc
      simp only [] at hc
      split_ifs at hc
      all_goals try exact Option.noConfusion hc
      all_goals
        injection hc with hc
        subst hc
        exact ⟨le_of_not_lt (by assumption), rfl⟩
  · intro tol erect ohlcv t p ht hc
    unfold detect_head_and_shoulders
    simp only []
    rw [if_neg (not_lt.mpr (consecutiveTriples_length _ t ht))]
    exact List.mem_filterMap.mpr ⟨t, ht, hc⟩

unseal Rat.mul Rat.inv Rat.add Rat.sub in
/-- **C9** witness: the emission soundness applied to the pattern the
detector emits on the 110/125 series. -/
theorem hns_symmetry_gate_witness :
    hnsPattern125 ∈ detect_head_and_shoulders (3/20) true (hnsSeries 125) ∧
      shoulderSym (orZero hnsPattern125.left_shoulder)
        (orZero hnsPattern125.right_shoulder) ≤ 3/20 ∧
      hnsPattern125.confidence =
        1 - shoulderSym (orZero hnsPattern125.left_shoulder)
          (orZero hnsPattern125.right_shoulder) :=
  ⟨by decide,
    (hns_symmetry_gate.1 (3/20) true (hnsSeries 125) hnsPattern125
      (by decide)).1,
    (hns_symmetry_gate.1 (3/20) true (hnsSeries 125) hnsPattern125
      (by decide)).2⟩

theorem trueRanges_nonneg (pc : Option ℚ) (cs : List Candle)
    (hwf : ∀ c ∈ cs, c.low ≤ c.high) :
    ∀ x ∈ trueRanges pc cs, 0 ≤ x := by
  induction cs generalizing pc with
  | nil =>
    intro x hx
    simp [trueRanges] at hx
  | cons c rest ih =>
    intro x hx
    simp only [trueRanges, List.mem_cons] at hx
    rcases hx with rfl | hx
    · cases pc with
      | none => exact sub_nonneg.mpr (hwf c (List.mem_cons_self c rest))
      | some v =>
        exact le_trans (le_trans (abs_nonneg (c.high - v)) (le_max_left _ _))
          (le_max_right _ _)
    · exact ih (some c.close) (fun d hd => hwf d (List.mem_cons_of_mem c hd)) x hx

theorem calculate_atr_nonneg (s : PositionSizer) (cs : List Candle)
    (hwf : ∀ c ∈ cs, c.low ≤ c.high) : 0 ≤ calculate_atr s cs := by
  unfold calculate_atr
  split_ifs with h
  · exact le_refl 0
  · apply div_nonneg
    · apply List.sum_nonneg
      intro x hx
      have hx2 : x ∈ trueRanges none cs := List.mem_of_mem_drop hx
      exact trueRanges_nonneg none cs hwf x hx2
    · exact Nat.cast_nonneg _

theorem level_nonneg_of_touch {lvl x : ℚ} (h : |x - lvl| ≤ lvl * (2/100)) :
    0 ≤ lvl := by
  have h0 := abs_nonneg (x - lvl)
  linarith

theorem atr_stoploss_buy (s : PositionSizer) (ohlcv : List Candle) (e : ℚ) :
    atr_stoploss s ohlcv e "buy" = e - calculate_atr s ohlcv * s.atr_multiplier :=
  rfl

theorem atr_stoploss_sell (s : PositionSizer) (ohlcv : List Candle) (e : ℚ) :
    atr_stoploss s ohlcv e "sell" = e + calculate_atr s ohlcv * s.atr_multiplier :=
  rfl

theorem take_profit_buy (s : PositionSizer) (e pips : ℚ) :
    calculate_take_profit s e "buy" pips = e + pips * s.pips_unit_in_usd :=
  rfl

theorem take_profit_sell (s : PositionSizer) (e pips : ℚ) :
    calculate_take_profit s e "sell" pips = e - pips * s.pips_unit_in_usd :=
  rfl

theorem stop_loss_ErectHnS_struct (s : PositionSizer) (p : Pattern)
    (ohlcv : List Candle) (h : p.type = .ErectHnS) (v : ℚ)
    (hrs : p.right_shoulder = some v) (hv : v ≠ 0) :
    calculate_stop_loss s p ohlcv "sell" = v + s.stoploss_padding_points := by
  unfold calculate_stop_loss structural_stoploss
  simp [h, hrs, pyTruthy, hv, orZero]

theorem stop_loss_ErectHnS_atr (s : PositionSizer) (p : Pattern)
    (ohlcv : List Candle) (h : p.type = .ErectHnS)
    (hfalsy : pyTruthy p.right_shoulder = false) :
    calculate_stop_loss s p ohlcv "sell" =
      atr_stoploss s ohlcv (lastClose ohlcv) "sell" := by
  unfold calculate_stop_loss structural_stoploss
  simp [h, hfalsy]

theorem stop_loss_InvertedHnS_struct (s : PositionSizer) (p : Pattern)
    (ohlcv : List Candle) (h : p.type = .InvertedHnS) (v : ℚ)
    (hrs : p.right_shoulder = some v) (hv : v ≠ 0) :
    calculate_stop_loss s p ohlcv "buy" = v - s.stoploss_padding_points := by
  unfold calculate_stop_loss structural_stoploss
  simp [h, hrs, pyTruthy, hv, orZero]

theorem stop_loss_InvertedHnS_atr (s : PositionSizer) (p : Pattern)
    (ohlcv : List Candle) (h : p.type = .InvertedHnS)
    (hfalsy : pyTruthy p.right_shoulder = false) :
    calculate_stop_loss s p ohlcv "buy" =
      atr_stoploss s ohlcv (lastClose ohlcv) "buy" := by
  unfold calculate_stop_loss structural_stoploss
  simp [h, hfalsy]

theorem stop_loss_DoubleTop (s : PositionSizer) (p : Pattern)
    (ohlcv : List Candle) (h : p.type = .DoubleTop) :
    calculate_stop_loss s p ohlcv "sell" =
      max (orZero p.left_shoulder) (orZero p.right_shoulder) +
        s.stoploss_padding_points := by
  unfold calculate_stop_loss structural_stoploss
  simp [h]

theorem stop_loss_ErectRect_struct (s : PositionSizer) (p : Pattern)
    (ohlcv : List Candle) (h : p.type = .ErectRect) (v : ℚ)
    (hrb : p.rectangle_bottom = some v) (hv : v ≠ 0) :
    calculate_stop_loss s p ohlcv "buy" = v - s.stoploss_padding_points := by
  unfold calculate_stop_loss structural_stoploss
  simp [h, hrb, pyTruthy, hv, orZero]

theorem stop_loss_ErectRect_atr (s : PositionSizer) (p : Pattern)
    (ohlcv : List Candle) (h : p.type = .ErectRect)
    (hfalsy : pyTruthy p.rectangle_bottom = false) :
    calculate_stop_loss s p ohlcv "buy" =
      atr_stoploss s ohlcv (lastClose ohlcv) "buy" := by
  unfold calculate_stop_loss structural_stoploss
  simp [h, hfalsy]

theorem stop_loss_InvRect_struct (s : PositionSizer) (p : Pattern)
    (ohlcv : List Candle) (h : p.type = .InvRect) (v : ℚ)
    (hrt : p.rectangle_top = some v) (hv : v ≠ 0) :
    calculate_stop_loss s p ohlcv "sell" = v + s.stoploss_padding_points := by
  unfold calculate_stop_loss structural_stoploss
  simp [h, hrt, pyTruthy, hv, orZero]

theorem stop_loss_InvRect_atr (s : PositionSizer) (p : Pattern)
    (ohlcv : List Candle) (h : p.type = .InvRect)
    (hfalsy : pyTruthy p.rectangle_top = false) :
    calculate_stop_loss s p ohlcv "sell" =
      atr_stoploss s ohlcv (lastClose ohlcv) "sell" := by
  unfold calculate_stop_loss structural_stoploss
  simp [h, hfalsy]

theorem atr_branch_buy (s : PositionSizer) (ohlcv : List Candle) (e : ℚ)
    (hwf : ∀ c ∈ ohlcv, c.low ≤ c.high) (hmul : 0 ≤ s.atr_multiplier)
    (hne : e ≠ atr_stoploss s ohlcv e "buy") :
    atr_stoploss s ohlcv e "buy" < e := by
  rw [atr_stoploss_buy] at hne ⊢
  have h1 : 0 ≤ calculate_atr s ohlcv * s.atr_multiplier :=
    mul_nonneg (calculate_atr_nonneg s ohlcv hwf) hmul
  rcases h1.lt_or_eq with h2 | h2
  · linarith
  · exfalso
    exact hne (by rw [← h2, sub_zero])

theorem atr_branch_sell (s : PositionSizer) (ohlcv : List Candle) (e : ℚ)
    (hwf : ∀ c ∈ ohlcv, c.low ≤ c.high) (hmul : 0 ≤ s.atr_multiplier)
    (hne : e ≠ atr_stoploss s ohlcv e "sell") :
    e < atr_stoploss s ohlcv e "sell" := by
  rw [atr_stoploss_sell] at hne ⊢
  have h1 : 0 ≤ calculate_atr s ohlcv * s.atr_multiplier :=
    mul_nonneg (calculate_atr_nonneg s ohlcv hwf) hmul
  rcases h1.lt_or_eq with h2 | h2
  · linarith
  · exfalso
    exact hne (by rw [← h2, add_zero])

/-- **C6**: every trade the orchestrator registers after a successful
order has its stop-loss and take-profit on the correct side of the
entry: stop < entry < target for longs, target < entry < stop for
shorts. Holds for well-formed candles (low ≤ high), a non-negative
stop-loss padding, a positive take-profit distance, a non-negative ATR
multiplier, and the pattern-geometry facts the detector guarantees. -/
theorem registered_trade_stop_target_sides
    (allowed : List String) (sizer : PositionSizer) (tp_pips : ℚ)
    (rm : RiskManager) (today symbol : String) (p : Pattern)
    (ohlcv : List Candle) (balance : ℚ) (res : OrderResult) (t : Trade)
    (hwf : ∀ c ∈ ohlcv, c.low ≤ c.high)
    (hpad : 0 ≤ sizer.stoploss_padding_points)
    (htp : 0 < tp_pips * sizer.pips_unit_in_usd)
    (hmul : 0 ≤ sizer.atr_multiplier)
    (hcons : PatternConsistent p)
    (hreg : process_pattern_registered allowed sizer tp_pips rm today symbol
      p ohlcv balance res = some t) :
    (t.side = "buy" →
      t.stop_loss < t.entry_price ∧ t.entry_price < t.take_profit) ∧
    (t.side = "sell" →
      t.take_profit < t.entry_price ∧ t.entry_price < t.stop_loss) := by
  unfold process_pattern_registered at hreg
  cases hord : process_pattern_order allowed sizer tp_pips rm today p ohlcv
      balance with
  | none =>
    rw [hord] at hreg
    exact Option.noConfusion hreg
  | some req =>
    rw [hord] at hreg
    split_ifs at hreg with hsucc
    injection hreg with hreg
    subst hreg
    unfold process_pattern_order at hord
    simp only [] at hord
    split_ifs at hord with h1 h2 h3 h4 h5
    injection hord with hord
    subst hord
    dsimp only
    -- the size that passed validation pins down the guard facts
    have hb := (is_size_allowed_bounds h4).1
    have hsz : calculate_position_size sizer balance (lastClose ohlcv)
        (calculate_stop_loss sizer p ohlcv (get_trade_side p.type)) ≠ 0 := by
      intro h0
      rw [h0] at hb
      norm_num at hb
    obtain ⟨hbal, hentry, hslpos, hne⟩ := calculate_position_size_ne_zero hsz
    obtain ⟨hlen5, hkind⟩ := confirm_retest_unfolded p ohlcv h2
    cases htk : p.type
    · -- ErectHnS
      simp only [htk] at hkind
      simp only [PatternConsistent, htk] at hcons
      simp only [htk, get_trade_side] at hne ⊢
      obtain ⟨⟨c, hc, hcp⟩, hrej⟩ := hkind
      refine ⟨fun hside => absurd hside (by decide), fun _ => ?_⟩
      rw [take_profit_sell]
      have hlev : 0 ≤ orZero p.right_shoulder := level_nonneg_of_touch hcp
      refine ⟨by linarith, ?_⟩
      cases hrs : p.right_shoulder with
      | none =>
        rw [stop_loss_ErectHnS_atr sizer p ohlcv htk (by simp [pyTruthy, hrs])]
          at hne ⊢
        exact atr_branch_sell sizer ohlcv (lastClose ohlcv) hwf hmul hne
      | some v =>
        by_cases hv : v = 0
        · rw [stop_loss_ErectHnS_atr sizer p ohlcv htk
            (by simp [pyTruthy, hrs, hv])] at hne ⊢
          exact atr_branch_sell sizer ohlcv (lastClose ohlcv) hwf hmul hne
        · rw [stop_loss_ErectHnS_struct sizer p ohlcv htk v hrs hv]
          rw [hrs] at hrej hlev
          simp only [orZero, Option.getD_some] at hrej hlev
          linarith
    · -- InvertedHnS
      simp only [htk] at hkind
      simp only [PatternConsistent, htk] at hcons
      simp only [htk, get_trade_side] at hne ⊢
      obtain ⟨⟨c, hc, hcp⟩, hrej⟩ := hkind
      refine ⟨fun _ => ?_, fun hside => absurd hside (by decide)⟩
      rw [take_profit_buy]
      have hlev : 0 ≤ orZero p.right_shoulder := level_nonneg_of_touch hcp
      refine ⟨?_, by linarith⟩
      cases hrs : p.right_shoulder with
      | none =>
        rw [stop_loss_InvertedHnS_atr sizer p ohlcv htk
          (by simp [pyTruthy, hrs])] at hne ⊢
        exact atr_branch_buy sizer ohlcv (lastClose ohlcv) hwf hmul hne
      | some v =>
        by_cases hv : v = 0
        · rw [stop_loss_InvertedHnS_atr sizer p ohlcv htk
            (by simp [pyTruthy, hrs, hv])] at hne ⊢
          exact atr_branch_buy sizer ohlcv (lastClose ohlcv) hwf hmul hne
        · rw [stop_loss_InvertedHnS_struct sizer p ohlcv htk v hrs hv]
          rw [hrs] at hrej hlev
          simp only [orZero, Option.getD_some] at hrej hlev
          linarith
    · -- DoubleTop
      simp only [htk] at hkind
      simp only [PatternConsistent, htk] at hcons
      simp only [htk, get_trade_side] at hne ⊢
      obtain ⟨⟨c, hc, hcp⟩, hrej⟩ := hkind
      refine ⟨fun hside => absurd hside (by decide), fun _ => ?_⟩
      rw [take_profit_sell, stop_loss_DoubleTop sizer p ohlcv htk]
      have hlev : 0 ≤ p.neckline_price := level_nonneg_of_touch hcp
      exact ⟨by linarith, by linarith⟩
    · -- ErectRect
      simp only [htk] at hkind
      simp only [PatternConsistent, htk] at hcons
      simp only [htk, get_trade_side] at hne ⊢
      obtain ⟨⟨c, hc, hcp⟩, hrej⟩ := hkind
      refine ⟨fun _ => ?_, fun hside => absurd hside (by decide)⟩
      rw [take_profit_buy]
      have hlev : 0 ≤ p.neckline_price := level_nonneg_of_touch hcp
      refine ⟨?_, by linarith⟩
      cases hrb : p.rectangle_bottom with
      | none =>
        rw [stop_loss_ErectRect_atr sizer p ohlcv htk
          (by simp [pyTruthy, hrb])] at hne ⊢
        exact atr_branch_buy sizer ohlcv (lastClose ohlcv) hwf hmul hne
      | some v =>
        by_cases hv : v = 0
        · rw [stop_loss_ErectRect_atr sizer p ohlcv htk
            (by simp [pyTruthy, hrb, hv])] at hne ⊢
          exact atr_branch_buy sizer ohlcv (lastClose ohlcv) hwf hmul hne
        · rw [stop_loss_ErectRect_struct sizer p ohlcv htk v hrb hv]
          rw [hrb] at hcons
          simp only [orZero, Option.getD_some] at hcons
          linarith
    · -- InvRect
      simp only [htk] at hkind
      simp only [PatternConsistent, htk] at hcons
      simp only [htk, get_trade_side] at hne ⊢
      obtain ⟨⟨c, hc, hcp⟩, hrej⟩ := hkind
      refine ⟨fun hside => absurd hside (by decide), fun _ => ?_⟩
      rw [take_profit_sell]
      have hlev : 0 ≤ p.neckline_price := level_nonneg_of_touch hcp
      refine ⟨by linarith, ?_⟩
      cases hrt : p.rectangle_top with
      | none =>
        rw [stop_loss_InvRect_atr sizer p ohlcv htk
          (by simp [pyTruthy, hrt])] at hne ⊢
        exact atr_branch_sell sizer ohlcv (lastClose ohlcv) hwf hmul hne
      | some v =>
        by_cases hv : v = 0
        · rw [stop_loss_InvRect_atr sizer p ohlcv htk
            (by simp [pyTruthy, hrt, hv])] at hne ⊢
          exact atr_branch_sell sizer ohlcv (lastClose ohlcv) hwf hmul hne
        · rw [stop_loss_InvRect_struct sizer p ohlcv htk v hrt hv]
          rw [hrt] at hcons
          simp only [orZero, Option.getD_some] at hcons
          linarith

unseal Rat.mul Rat.inv Rat.add Rat.sub in
/-- **C6** witness: the side invariant instantiated on a concrete
registered trade (long rectangle-breakout entry at 101.5 with stop 80
and target 151.5). -/
theorem registered_trade_stop_target_sides_witness :
    process_pattern_registered ["ErectRect"] {} 50 {} "2026-10-12" "BTC/USD"
        rectPat rectCandles 10000 { success := true, order_id := "X" } =
      some c6Trade ∧
    ((c6Trade.side = "buy" →
      c6Trade.stop_loss < c6Trade.entry_price ∧
        c6Trade.entry_price < c6Trade.take_profit) ∧
    (c6Trade.side = "sell" →
      c6Trade.take_profit < c6Trade.entry_price ∧
        c6Trade.entry_price < c6Trade.stop_loss)) :=
  ⟨by decide,
    registered_trade_stop_target_sides ["ErectRect"] {} 50 {} "2026-10-12"
      "BTC/USD" rectPat rectCandles 10000 { success := true, order_id := "X" }
      c6Trade (by decide) (by decide) (by decide) (by decide)
      (by show orZero rectPat.rectangle_bottom ≤ rectPat.neckline_price
          decide)
      (by decide)⟩

end Bitoki
